import Mathlib

/-!
Verification development for the SmartChat repository (FastAPI chat room with
an addressable LLM assistant).

The Python source (app/main.py, app/akashvani_llm.py, app/prompts.py) is
shallowly embedded: Python strings are Lean String values, but the Python
string operations used by the code (lower, upper, strip, startswith, slicing,
split, join) are re-implemented on the underlying character list so that all
definitions compute inside the kernel.  Stateful code (the ConnectionManager
and the websocket endpoint loop) is embedded as explicit state passing over a
HubState record; the external LLM backend is embedded as an explicit result
value (the HTTP call either returns a 2xx JSON body whose optional field
corresponds to response_data.get, or raises a requests RequestException, or
raises some other exception).
-/

namespace SmartChat

/-! ### Python string primitives (character-list semantics) -/

/-- Whitespace recognised by Python str.strip (the characters that occur in
this code base: space, tab, newline, carriage return). -/
def isPySpace (c : Char) : Bool :=
  c = ' ' || c = '\t' || c = '\n' || c = '\r'

/-- Python s.lower() (ASCII case mapping, which is all this code base uses). -/
def pyLower (s : String) : String := ⟨s.data.map Char.toLower⟩

/-- Python s.upper(). -/
def pyUpper (s : String) : String := ⟨s.data.map Char.toUpper⟩

/-- Python s.strip(). -/
def pyStrip (s : String) : String :=
  ⟨((s.data.dropWhile isPySpace).reverse.dropWhile isPySpace).reverse⟩

/-- Python s.startswith(p). -/
def pyStartsWith (s p : String) : Bool :=
  s.data.take p.data.length == p.data

/-- Python s[n:] (character slicing). -/
def pyDrop (s : String) (n : Nat) : String := ⟨s.data.drop n⟩

/-- Python len(s) (number of characters). -/
def pyLen (s : String) : Nat := s.data.length

/-- Helper for Python s.split(c, 1): split the character list at the first
newline, if any. -/
def splitOnceAux : List Char → Option (List Char × List Char)
  | [] => none
  | c :: cs =>
    if c = '\n' then some ([], cs)
    else
      match splitOnceAux cs with
      | none => none
      | some (a, b) => some (c :: a, b)

/-- Python s.split(chr(10), 1): the part before the first newline, and the
remainder when a newline exists. -/
def pySplitOnce (s : String) : String × Option String :=
  match splitOnceAux s.data with
  | none => (s, none)
  | some (a, b) => (⟨a⟩, some ⟨b⟩)

/-- Python sep.join(xs). -/
def pyJoin (sep : String) : List String → String
  | [] => ""
  | [x] => x
  | x :: y :: xs => x ++ sep ++ pyJoin sep (y :: xs)

/-- s contains sub as a contiguous substring. -/
def strContains (s sub : String) : Prop := sub.data <:+: s.data

/-! ### Mention detection (app/main.py, websocket_endpoint lines 91-113) -/

/-- The endpoint lower-cases the configured shorthand and prepends "@" when it
does not already start with "@" (main.py lines 95-97). -/
def normalized_shorthand_check (shorthand : String) : String :=
  let n := pyLower shorthand
  if pyStartsWith n "@" then n else "@" ++ n

/-- main.py lines 101-102: the (already stripped) message text is an explicit
call to Akashvani when its lower-cased form starts with "@" plus the
lower-cased username, or with the normalized shorthand. -/
def isAddressed (username shorthand mtext : String) : Bool :=
  pyStartsWith (pyLower mtext) ("@" ++ pyLower username) ||
  pyStartsWith (pyLower mtext) (normalized_shorthand_check shorthand)

/-- main.py lines 105-113: determine which of the two forms matched and remove
it.  The full-name branch removes len(username)+1 characters; the shorthand
branch removes len(shorthand) characters, the length of the raw configured
shorthand rather than of the normalized form that was matched. -/
def user_question (username shorthand mtext : String) : String :=
  if pyStartsWith (pyLower mtext) ("@" ++ pyLower username) then
    pyStrip (pyDrop mtext (pyLen username + 1))
  else if pyStartsWith (pyLower mtext) (normalized_shorthand_check shorthand) then
    pyStrip (pyDrop mtext (pyLen shorthand))
  else mtext

/-! ### Data model (spec section 3; main.py ConnectionManager) -/

/-- A chat message as stored by the hub: username, text, timestamp.  A frame
whose JSON object lacks the "text" key is represented with text "" (the
endpoint reads it with incoming_message.get("text", "")). -/
structure Msg where
  username : String
  text : String
  timestamp : String
deriving DecidableEq

/-- The ConnectionManager state (main.py lines 36-40) together with a delivery
log: recv c is the sequence of messages successfully sent to connection c,
in send order.  Connections are identified by naturals. -/
structure HubState where
  active_connections : List Nat
  messages : List Msg
  recv : Nat → List Msg

/-! ### Hub operations (main.py lines 42-69) -/

/-- ConnectionManager.connect (lines 42-49): accept, append the connection to
the live list, then send every past message to it, one by one, in history
order. -/
def hubConnect (c : Nat) (s : HubState) : HubState :=
  { s with
    active_connections := s.active_connections ++ [c]
    recv := fun d => if d = c then s.recv d ++ s.messages else s.recv d }

/-- ConnectionManager.disconnect (lines 51-53): remove the connection from the
live list when present (List.erase: removes the first occurrence, no-op when
absent, exactly the guarded list.remove). -/
def hubDisconnect (c : Nat) (s : HubState) : HubState :=
  { s with active_connections := s.active_connections.erase c }

/-- One iteration of the broadcast fan-out loop (lines 64-69): try to send m
to connection c; on a RuntimeError (fails c) call disconnect instead.  The
predicate fails models which sends raise at this fan-out. -/
def sendOrDrop (fails : Nat → Bool) (m : Msg) (s : HubState) (c : Nat) : HubState :=
  if fails c then { s with active_connections := s.active_connections.erase c }
  else { s with recv := fun d => if d = c then s.recv d ++ [m] else s.recv d }

/-- ConnectionManager.broadcast (lines 58-69): parse and append the message to
history, then iterate over a snapshot copy of the live list, sending to each
connection and removing the ones whose send raises. -/
def hubBroadcast (fails : Nat → Bool) (m : Msg) (s : HubState) : HubState :=
  let s1 : HubState := { s with messages := s.messages ++ [m] }
  s1.active_connections.foldl (sendOrDrop fails m) s1

/-- A hub-level operation trace element: a client connecting, or a message
being broadcast (with the send-failure pattern of that fan-out). -/
inductive HubOp where
  | connectOp (c : Nat)
  | broadcastOp (fails : Nat → Bool) (m : Msg)

def applyHubOp : HubOp → HubState → HubState
  | .connectOp c, s => hubConnect c s
  | .broadcastOp fails m, s => hubBroadcast fails m s

def applyHubOps (ops : List HubOp) (s : HubState) : HubState :=
  ops.foldl (fun s op => applyHubOp op s) s

/-- The messages broadcast by a hub-level trace, in order. -/
def broadcastMsgs (ops : List HubOp) : List Msg :=
  ops.filterMap fun op =>
    match op with
    | .broadcastOp _ m => some m
    | .connectOp _ => none

/-- An operation is benign for connection c when it is not a reconnect of c
and its sends to c succeed. -/
def benignFor (c : Nat) : HubOp → Prop
  | .connectOp d => d ≠ c
  | .broadcastOp fails _ => fails c = false

/-! ### Backend call outcomes (app/akashvani_llm.py)

Each requests.post call either returns a 2xx JSON body (response_data), whose
"response" field may be present or absent, or raises a
requests.exceptions.RequestException (connection refused, timeout, or non-2xx
via raise_for_status), or raises some other exception (e.g. a non-JSON body).
-/

inductive BackendResult where
  | success (responseField : Option String)
  | requestError (e : String)
  | otherError (e : String)
deriving DecidableEq

/-! ### Prompt templates (app/prompts.py) with named slots filled -/

/-- SUMMARIZATION_PROMPT_TEMPLATE.format(full_chat_history, user_question). -/
def SUMMARIZATION_PROMPT_fmt (full_chat_history uq : String) : String :=
  "You are a highly skilled chat summarizer.\nYour task is to review the provided \x27Full Chat History\x27 and extract or summarize only the information that is highly relevant to the \x27User\x27s specific question\x27.\nBe extremely concise and extract only the facts, names, dates, or key points directly related to the question.\nIf there is no information in the history relevant to the question, state \"[No relevant history found]\".\n\nFull Chat History:\n" ++
  full_chat_history ++
  "\n\nUser\x27s specific question: \"" ++ uq ++
  "\"\n\nRelevant summary of chat history (related to the question):\n"

/-- AKASHVANI_PROMPT_TEMPLATE.format(context, user_question). -/
def AKASHVANI_PROMPT_fmt (context uq : String) : String :=
  "You are Akashvani, a helpful, concise, and factual AI assistant in a chat.\nYour primary goal is to provide direct and accurate factual answers to the user\x27s *current, explicit question*.\n\n**Important Instructions for Akashvani:**\n- Always respond from the perspective of \x27Akashvani\x27.\n- Your answer should be concise and to the point. Aim for 1-3 sentences for factual answers, or a brief summary if explicitly requested.\n- If the user\x27s question is a factual query (e.g., \"What is X?\", \"Is Y true?\", \"What\x27s the capital of Z?\"), provide a direct and accurate factual answer from your knowledge base.\n- The \x27Recent Chat History\x27 provided below has already been summarized to be highly relevant to the \x27User\x27s explicit question\x27. Use this summarized context judiciously to answer or clarify.\n- Do NOT simply restate what a previous participant said if a factual answer is implicitly or explicitly requested.\n- Do NOT introduce yourself, ask for clarification unless absolutely necessary, or refer to past interactions unless directly relevant to the *current* question\x27s intent.\n- Your response should come directly from Akashvani, without any introductory phrases like \"Akashvani says:\" or repeating the user\x27s question.\n\nRecent Chat History (already summarized for relevance to the question):\n" ++
  context ++
  "\n\nUser\x27s explicit question to Akashvani: \"" ++ uq ++
  "\"\n\nYour concise answer:\n"

/-- EVALUATION_PROMPT_TEMPLATE.format(expected_behavior, actual_response). -/
def EVALUATION_PROMPT_fmt (expected_behavior actual_response : String) : String :=
  "You are an impartial and strict AI test judge.\nYour task is to evaluate an AI assistant\x27s response based on a specific expected behavior.\nRespond ONLY with the word \"PASS\" if the actual response meets the expected behavior,\nor \"FAIL\" if it does not.\n\nIf you respond \"FAIL\", you MUST also provide a brief, concise reason on a new line.\n\n---\nExpected Behavior: " ++
  expected_behavior ++ "\nActual AI Response: " ++ actual_response ++
  "\n---\n\nEvaluation:\n"

/-! ### Summarization stage (akashvani_llm.py lines 38-92) -/

/-- Lines 55-61: render the history for the summarizer prompt, one
"username: text" line per message, excluding messages authored by the
assistant; the empty rendering is replaced by a placeholder. -/
def formatted_full_history (username : String) (history : List Msg) : String :=
  let joined := pyJoin "\n"
    ((history.filter fun m => m.username != username).map fun m =>
      m.username ++ ": " ++ m.text)
  if joined = "" then "[No chat history available for summarization]" else joined

/-- Lines 63-66: the literal prompt submitted by the summarization stage. -/
def summarizer_prompt (username : String) (history : List Msg) (uq : String) : String :=
  SUMMARIZATION_PROMPT_fmt (formatted_full_history username history) uq

/-- summarize_chat_history result as a function of the backend call outcome
(lines 78-92): on 2xx, response_data.get("response", "").strip(); on a
RequestException, a literal error marker; on any other exception, a second
literal error marker. -/
def summarize_chat_history (username : String) (history : List Msg) (uq : String)
    (r : BackendResult) : String :=
  match r with
  | .success f => pyStrip (f.getD "")
  | .requestError _ => "[Error: Could not generate summary. Check Ollama connection.]"
  | .otherError _ => "[Error: Unexpected summarization issue.]"

/-! ### Answer stage (akashvani_llm.py lines 95-161) -/

/-- Lines 146-152: strip the raw generated text, then remove a leading
"username:" prefix (case-insensitive) and a leading "your concise answer:"
lead-in, trimming after each removal. -/
def sanitize_response (username txt : String) : String :=
  let t1 := pyStrip txt
  let t2 :=
    if pyStartsWith (pyLower t1) (pyLower username ++ ":") then
      pyStrip (pyDrop t1 (pyLen username + 1))
    else t1
  if pyStartsWith (pyLower t2) "your concise answer:" then
    pyStrip (pyDrop t2 (pyLen "your concise answer:"))
  else t2

/-- Lines 121-124: the Stage-2 prompt, whose context slot is the Stage-1
output. -/
def akashvani_prompt (username : String) (history : List Msg) (uq : String)
    (rSum : BackendResult) : String :=
  AKASHVANI_PROMPT_fmt (summarize_chat_history username history uq rSum) uq

/-- call_llm_for_akashvani result as a function of the Stage-2 backend call
outcome (lines 136-161): on 2xx with the "response" field, the sanitized
text; on 2xx without it, a fixed notice; on a RequestException, an apology
naming the configured model; on any other exception, an apology embedding the
exception text. -/
def call_llm_for_akashvani (model username : String) (history : List Msg) (uq : String)
    (rSum rAns : BackendResult) : String :=
  match rAns with
  | .success (some txt) => sanitize_response username txt
  | .success none => "Akashvani: I received an unexpected response from the LLM."
  | .requestError e =>
      "Akashvani: I apologize, but I\x27m having trouble connecting to my knowledge base (Ollama). Please ensure Ollama is running and the model \x27" ++
      model ++ "\x27 is pulled. Error: " ++ e
  | .otherError e =>
      "Akashvani: An internal error occurred while processing your request: " ++ e

/-! ### Judge (akashvani_llm.py lines 164-221) -/

structure EvalResult where
  status : String
  reason : String
deriving DecidableEq

/-- evaluate_akashvani_response as a function of the judge backend call
outcome (lines 194-221): parse the first line of the stripped raw output as
the verdict, the remainder as the reason. -/
def evaluate_akashvani_response (r : BackendResult) : EvalResult :=
  match r with
  | .success f =>
      let judge_output := pyStrip (f.getD "")
      let parts := pySplitOnce judge_output
      let status := pyUpper (pyStrip parts.1)
      let reason :=
        match parts.2 with
        | some rest => pyStrip rest
        | none => ""
      if status = "PASS" then ⟨"PASS", ""⟩
      else
        ⟨"FAIL",
          if reason = "" then "No specific reason provided by judge, but status was FAIL."
          else reason⟩
  | .requestError e => ⟨"ERROR", "Judge connection error: " ++ e⟩
  | .otherError e => ⟨"ERROR", "Judge internal error: " ++ e⟩

/-! ### The websocket endpoint loop (main.py lines 82-139) -/

/-- Assistant name, shorthand and model as loaded from the environment. -/
structure ChatConfig where
  username : String
  shorthand : String
  model : String

/-- An inbound frame: either text that json.loads rejects, or a parsed
Message-shaped payload. -/
inductive Frame where
  | malformed
  | valid (m : Msg)
deriving DecidableEq

/-- What the next await websocket.receive_text() does: yields a frame, raises
WebSocketDisconnect, or raises a RuntimeError. -/
inductive ClientEvent where
  | frame (f : Frame)
  | wsDisconnect
  | runtimeError
deriving DecidableEq

/-- Observable actions of the endpoint loop, in program order. -/
inductive Action where
  | broadcastAct (m : Msg)
  | pipelineAct (history : List Msg) (question : String)
  | disconnectAct (c : Nat)
deriving DecidableEq

/-- How the loop terminated. -/
inductive ExitKind where
  | wsDisconnect
  | runtimeError
  | unhandledException
deriving DecidableEq

/-- Handling of one parsed frame (main.py lines 90-131).  llm is the
call_llm_for_akashvani oracle (its result depends on the history and question
passed to it); now is the timestamp the endpoint attaches to the assistant
message; fails is the send-failure pattern of the broadcasts issued while
handling this frame. -/
def handleFrame (cfg : ChatConfig) (llm : List Msg → String → String) (now : String)
    (fails : Nat → Bool) (m : Msg) (s : HubState) : HubState × List Action :=
  let message_text := pyStrip m.text
  if isAddressed cfg.username cfg.shorthand message_text then
    let uq := user_question cfg.username cfg.shorthand message_text
    let s1 := hubBroadcast fails m s
    let resp := llm s1.messages uq
    let am : Msg := ⟨cfg.username, resp, now⟩
    (hubBroadcast fails am s1,
     [.broadcastAct m, .pipelineAct s1.messages uq, .broadcastAct am])
  else
    (hubBroadcast fails m s, [.broadcastAct m])

/-- Result of running the endpoint loop on a finite schedule of client
events. -/
structure RunResult where
  state : HubState
  exit : Option ExitKind
  trace : List Action
  unprocessed : List ClientEvent

/-- The endpoint loop (main.py lines 86-139).  A WebSocketDisconnect or a
RuntimeError is caught and calls manager.disconnect; a malformed frame makes
json.loads raise an exception no handler catches, terminating the loop
without disconnecting; remaining events are never processed.  An exhausted
schedule leaves the loop suspended waiting for the next frame (exit none). -/
def runEndpoint (cfg : ChatConfig) (llm : List Msg → String → String) (now : String)
    (fails : Nat → Bool) (self : Nat) : HubState → List ClientEvent → RunResult
  | s, [] => ⟨s, none, [], []⟩
  | s, .wsDisconnect :: rest =>
      ⟨hubDisconnect self s, some .wsDisconnect, [.disconnectAct self], rest⟩
  | s, .runtimeError :: rest =>
      ⟨hubDisconnect self s, some .runtimeError, [.disconnectAct self], rest⟩
  | s, .frame .malformed :: rest => ⟨s, some .unhandledException, [], rest⟩
  | s, .frame (.valid m) :: rest =>
      let p := handleFrame cfg llm now fails m s
      let r := runEndpoint cfg llm now fails self p.1 rest
      ⟨r.state, r.exit, p.2 ++ r.trace, r.unprocessed⟩

/-- Number of assistant-pipeline invocations in a trace. -/
def countPipeline (tr : List Action) : Nat :=
  (tr.filter fun a =>
    match a with
    | .pipelineAct _ _ => true
    | _ => false).length

/-- Whether a client event is a well-formed frame addressed to the
assistant. -/
def isAddressedFrame (cfg : ChatConfig) : ClientEvent → Bool
  | .frame (.valid m) => isAddressed cfg.username cfg.shorthand (pyStrip m.text)
  | _ => false

/-- Whether a client event is a well-formed frame. -/
def isValidFrame : ClientEvent → Bool
  | .frame (.valid _) => true
  | _ => false

/-! ### Fan-out loop lemmas -/

lemma foldl_sendOrDrop_messages (fails : Nat → Bool) (m : Msg) :
    ∀ (l : List Nat) (s : HubState),
      (l.foldl (sendOrDrop fails m) s).messages = s.messages := by
  intro l
  induction l with
  | nil => intro s; rfl
  | cons c l ih =>
      intro s
      rw [List.foldl_cons, ih]
      unfold sendOrDrop
      split <;> rfl

lemma foldl_sendOrDrop_recv (fails : Nat → Bool) (m : Msg) :
    ∀ (l : List Nat) (s : HubState) (d : Nat),
      (l.foldl (sendOrDrop fails m) s).recv d =
        s.recv d ++ List.replicate ((l.filter fun c => !fails c).count d) m := by
  intro l
  induction l with
  | nil => intro s d; simp
  | cons c l ih =>
      intro s d
      rw [List.foldl_cons]
      by_cases fc : fails c
      · have hdrop : (sendOrDrop fails m s c) = { s with active_connections := s.active_connections.erase c } := by
          unfold sendOrDrop; simp [fc]
        rw [hdrop, ih]
        simp [List.filter_cons, fc]
      · have hsend : (sendOrDrop fails m s c) =
            { s with recv := fun d => if d = c then s.recv d ++ [m] else s.recv d } := by
          unfold sendOrDrop; simp [fc]
        rw [hsend, ih]
        by_cases hdc : d = c
        · subst hdc
          simp [List.filter_cons, fc, List.count_cons, List.replicate_succ, List.append_assoc]
        · simp [List.filter_cons, fc, List.count_cons, hdc]

lemma foldl_sendOrDrop_active (fails : Nat → Bool) (m : Msg) :
    ∀ (l fp : List Nat) (s : HubState),
      s.active_connections = fp ++ l → (∀ c ∈ fp, fails c = false) →
      (l.foldl (sendOrDrop fails m) s).active_connections =
        fp ++ l.filter fun c => !fails c := by
  intro l
  induction l with
  | nil => intro fp s hs _; simpa using hs
  | cons c l ih =>
      intro fp s hs hfp
      rw [List.foldl_cons]
      by_cases fc : fails c
      · have hcfp : c ∉ fp := fun hc => by simp [hfp c hc] at fc
        have hdrop : (sendOrDrop fails m s c) = { s with active_connections := s.active_connections.erase c } := by
          unfold sendOrDrop; simp [fc]
        have herase : (s.active_connections).erase c = fp ++ l := by
          rw [hs, List.erase_append_right _ hcfp, List.erase_cons_head]
        rw [hdrop, ih fp _ herase hfp]
        simp [List.filter_cons, fc]
      · have hsend : (sendOrDrop fails m s c) =
            { s with recv := fun d => if d = c then s.recv d ++ [m] else s.recv d } := by
          unfold sendOrDrop; simp [fc]
        have hfp' : ∀ c' ∈ fp ++ [c], fails c' = false := by
          intro c' hc'
          rcases List.mem_append.1 hc' with h | h
          · exact hfp c' h
          · simp at h; subst h; simpa using fc
        have hs' : (sendOrDrop fails m s c).active_connections = (fp ++ [c]) ++ l := by
          rw [hsend]; simpa [List.append_assoc] using hs
        rw [hsend] at hs' ⊢
        rw [ih (fp ++ [c]) _ hs' hfp']
        simp [List.filter_cons, fc, List.append_assoc]

lemma hubBroadcast_messages (fails : Nat → Bool) (m : Msg) (s : HubState) :
    (hubBroadcast fails m s).messages = s.messages ++ [m] := by
  unfold hubBroadcast
  rw [foldl_sendOrDrop_messages]

lemma hubBroadcast_active (fails : Nat → Bool) (m : Msg) (s : HubState) :
    (hubBroadcast fails m s).active_connections =
      s.active_connections.filter fun c => !fails c := by
  unfold hubBroadcast
  exact foldl_sendOrDrop_active fails m _ [] _ rfl (by intro c h; simp at h)

lemma hubBroadcast_recv (fails : Nat → Bool) (m : Msg) (s : HubState) (d : Nat) :
    (hubBroadcast fails m s).recv d =
      s.recv d ++ List.replicate ((s.active_connections.filter fun c => !fails c).count d) m := by
  unfold hubBroadcast
  rw [foldl_sendOrDrop_recv]

/-! ### Claim theorems -/

/-- C1: broadcast(m) first appends m to History; the fan-out then attempts
delivery of m to every connection in the live set at fan-out start: every
non-failing live connection receives m (once per list occurrence), a failing
connection receives nothing and is removed from the live set, every remaining
connection is still delivered to, and the failure is not surfaced (the
operation is a total function of the state). -/
theorem C1_broadcast_fanout (s : HubState) (m : Msg) (fails : Nat → Bool) :
    (hubBroadcast fails m s).messages = s.messages ++ [m] ∧
    (hubBroadcast fails m s).active_connections =
      s.active_connections.filter (fun c => !fails c) ∧
    ∀ d, (hubBroadcast fails m s).recv d =
      s.recv d ++ List.replicate ((s.active_connections.filter fun c => !fails c).count d) m :=
  ⟨hubBroadcast_messages fails m s, hubBroadcast_active fails m s,
   hubBroadcast_recv fails m s⟩

/-! ### Connect / trace lemmas -/

lemma hubConnect_active (c : Nat) (s : HubState) :
    (hubConnect c s).active_connections = s.active_connections ++ [c] := rfl

lemma hubConnect_recv_self (c : Nat) (s : HubState) :
    (hubConnect c s).recv c = s.recv c ++ s.messages := by
  simp [hubConnect]

lemma hubConnect_recv_other (c d : Nat) (s : HubState) (h : d ≠ c) :
    (hubConnect c s).recv d = s.recv d := by
  simp [hubConnect, h]

lemma applyHubOps_benign (c : Nat) :
    ∀ (ops : List HubOp) (s : HubState),
      s.active_connections.count c = 1 → (∀ op ∈ ops, benignFor c op) →
      (applyHubOps ops s).recv c = s.recv c ++ broadcastMsgs ops ∧
      (applyHubOps ops s).active_connections.count c = 1 := by
  intro ops
  induction ops with
  | nil => intro s h1 _; simp [applyHubOps, broadcastMsgs, h1]
  | cons op ops ih =>
      intro s h1 hben
      have hop : benignFor c op := hben op (by simp)
      have hops : ∀ o ∈ ops, benignFor c o := fun o ho => hben o (by simp [ho])
      have happ : applyHubOps (op :: ops) s = applyHubOps ops (applyHubOp op s) := rfl
      cases op with
      | connectOp d =>
          have hdc : d ≠ c := hop
          have hcount : (applyHubOp (HubOp.connectOp d) s).active_connections.count c = 1 := by
            simp [applyHubOp, hubConnect_active, List.count_append, h1,
              List.count_singleton, hdc]
          have hrecv : (applyHubOp (HubOp.connectOp d) s).recv c = s.recv c :=
            hubConnect_recv_other d c s (Ne.symm hdc)
          have := ih (applyHubOp (HubOp.connectOp d) s) hcount hops
          rw [happ]
          refine ⟨?_, this.2⟩
          rw [this.1, hrecv]
          simp [broadcastMsgs]
      | broadcastOp fails m =>
          have hfc : fails c = false := hop
          have hcnt_filter :
              ((s.active_connections.filter fun d => !fails d).count c) = 1 := by
            rw [List.count_filter (by simp [hfc])]
            exact h1
          have hcount : (applyHubOp (HubOp.broadcastOp fails m) s).active_connections.count c = 1 := by
            simp only [applyHubOp, hubBroadcast_active]
            exact hcnt_filter
          have hrecv : (applyHubOp (HubOp.broadcastOp fails m) s).recv c = s.recv c ++ [m] := by
            simp only [applyHubOp, hubBroadcast_recv, hcnt_filter, List.replicate_one]
          have := ih (applyHubOp (HubOp.broadcastOp fails m) s) hcount hops
          rw [happ]
          refine ⟨?_, this.2⟩
          rw [this.1, hrecv]
          simp [broadcastMsgs, List.append_assoc]

/-- C2: connect(conn) registers conn as live and then replays the entire
current History to it in order; thereafter, along any benign hub trace (no
reconnect of conn, no send failure to conn), conn receives each subsequently
broadcast message exactly once, so its delivery log is exactly the prior
History followed by the subsequent broadcasts, with no duplication and no
gaps. -/
theorem C2_connect_replay_then_live (s : HubState) (c : Nat) (ops : List HubOp)
    (hnew : c ∉ s.active_connections)
    (hben : ∀ op ∈ ops, benignFor c op) :
    (hubConnect c s).active_connections = s.active_connections ++ [c] ∧
    (hubConnect c s).recv c = s.recv c ++ s.messages ∧
    (applyHubOps ops (hubConnect c s)).recv c =
      s.recv c ++ s.messages ++ broadcastMsgs ops := by
  have hcount : (hubConnect c s).active_connections.count c = 1 := by
    rw [hubConnect_active]
    simp [List.count_append, List.count_eq_zero_of_not_mem hnew]
  have h := applyHubOps_benign c ops (hubConnect c s) hcount hben
  exact ⟨hubConnect_active c s, hubConnect_recv_self c s,
    by rw [h.1, hubConnect_recv_self]⟩

/-- Concrete messages used by witnesses. -/
def mAlice : Msg := ⟨"Alice", "I heard it\x27s raining in London.", "t1"⟩

def mBob : Msg := ⟨"Bob", "Is that true?", "t2"⟩

/-- Witness for C2: a client joining a hub whose history is [mAlice] receives
mAlice by replay and then a subsequent broadcast of mBob exactly once. -/
theorem C2_witness :
    (applyHubOps [HubOp.broadcastOp (fun _ => false) mBob]
        (hubConnect 0 ⟨[], [mAlice], fun _ => []⟩)).recv 0 = [mAlice, mBob] := by
  have h := C2_connect_replay_then_live ⟨[], [mAlice], fun _ => []⟩ 0
    [HubOp.broadcastOp (fun _ => false) mBob]
    (by simp)
    (by
      intro op hop
      simp at hop
      subst hop
      exact rfl)
  simpa [broadcastMsgs] using h.2.2

/-! ### Endpoint loop lemmas -/

lemma countPipeline_append (a b : List Action) :
    countPipeline (a ++ b) = countPipeline a + countPipeline b := by
  simp [countPipeline, List.filter_append]

lemma handleFrame_trace_addressed (cfg : ChatConfig) (llm : List Msg → String → String)
    (now : String) (fails : Nat → Bool) (m : Msg) (s : HubState)
    (h : isAddressed cfg.username cfg.shorthand (pyStrip m.text) = true) :
    (handleFrame cfg llm now fails m s).2 =
      [Action.broadcastAct m,
       Action.pipelineAct (s.messages ++ [m])
         (user_question cfg.username cfg.shorthand (pyStrip m.text)),
       Action.broadcastAct
         ⟨cfg.username,
          llm (s.messages ++ [m]) (user_question cfg.username cfg.shorthand (pyStrip m.text)),
          now⟩] := by
  simp [handleFrame, h, hubBroadcast_messages]

lemma handleFrame_trace_plain (cfg : ChatConfig) (llm : List Msg → String → String)
    (now : String) (fails : Nat → Bool) (m : Msg) (s : HubState)
    (h : isAddressed cfg.username cfg.shorthand (pyStrip m.text) = false) :
    (handleFrame cfg llm now fails m s).2 = [Action.broadcastAct m] := by
  simp [handleFrame, h]

lemma runEndpoint_good_then_malformed (cfg : ChatConfig) (llm : List Msg → String → String)
    (now : String) (fails : Nat → Bool) (self : Nat) :
    ∀ (good : List ClientEvent) (s : HubState) (rest : List ClientEvent),
      (∀ e ∈ good, isValidFrame e = true) →
      (runEndpoint cfg llm now fails self s good).exit = none ∧
      (runEndpoint cfg llm now fails self s good).unprocessed = [] ∧
      runEndpoint cfg llm now fails self s (good ++ ClientEvent.frame Frame.malformed :: rest) =
        ⟨(runEndpoint cfg llm now fails self s good).state, some ExitKind.unhandledException,
         (runEndpoint cfg llm now fails self s good).trace, rest⟩ := by
  intro good
  induction good with
  | nil =>
      intro s rest _
      exact ⟨rfl, rfl, rfl⟩
  | cons e good ih =>
      intro s rest hv
      have he : isValidFrame e = true := hv e (by simp)
      obtain ⟨m, rfl⟩ : ∃ m, e = ClientEvent.frame (Frame.valid m) := by
        cases e with
        | frame f =>
            cases f with
            | malformed => simp [isValidFrame] at he
            | valid m => exact ⟨m, rfl⟩
        | wsDisconnect => simp [isValidFrame] at he
        | runtimeError => simp [isValidFrame] at he
      have hgood : ∀ e ∈ good, isValidFrame e = true := fun e h => hv e (by simp [h])
      have hrec := ih (handleFrame cfg llm now fails m s).1 rest hgood
      refine ⟨?_, ?_, ?_⟩
      · simpa [runEndpoint] using hrec.1
      · simpa [runEndpoint] using hrec.2.1
      · show runEndpoint cfg llm now fails self s
            (ClientEvent.frame (Frame.valid m) :: (good ++ ClientEvent.frame Frame.malformed :: rest)) = _
        simp only [runEndpoint]
        rw [hrec.2.2]

lemma countPipeline_run (cfg : ChatConfig) (llm : List Msg → String → String)
    (now : String) (fails : Nat → Bool) (self : Nat) :
    ∀ (events : List ClientEvent) (s : HubState),
      (∀ e ∈ events, isValidFrame e = true) →
      countPipeline (runEndpoint cfg llm now fails self s events).trace =
        (events.filter (isAddressedFrame cfg)).length := by
  intro events
  induction events with
  | nil => intro s _; simp [runEndpoint, countPipeline]
  | cons e events ih =>
      intro s hv
      have he : isValidFrame e = true := hv e (by simp)
      obtain ⟨m, rfl⟩ : ∃ m, e = ClientEvent.frame (Frame.valid m) := by
        cases e with
        | frame f =>
            cases f with
            | malformed => simp [isValidFrame] at he
            | valid m => exact ⟨m, rfl⟩
        | wsDisconnect => simp [isValidFrame] at he
        | runtimeError => simp [isValidFrame] at he
      have hevents : ∀ e ∈ events, isValidFrame e = true := fun e h => hv e (by simp [h])
      have hrec := ih (handleFrame cfg llm now fails m s).1 hevents
      by_cases ha : isAddressed cfg.username cfg.shorthand (pyStrip m.text) = true
      · simp only [runEndpoint, countPipeline_append, hrec,
          handleFrame_trace_addressed cfg llm now fails m s ha,
          List.filter_cons, isAddressedFrame, ha]
        simp [countPipeline]
        omega
      · have ha' : isAddressed cfg.username cfg.shorthand (pyStrip m.text) = false := by
          simpa using ha
        simp only [runEndpoint, countPipeline_append, hrec,
          handleFrame_trace_plain cfg llm now fails m s ha',
          List.filter_cons, isAddressedFrame, ha']
        simp [countPipeline]

/-- C7: (1) a message authored by the assistant is excluded from the history
rendering passed to the summarization stage: deleting it from the history
leaves the rendering unchanged; (2) the number of assistant-pipeline
invocations performed by the endpoint loop equals the number of newly
arrived addressed frames, for every starting history (in particular one that
already contains assistant-authored messages); (3) connection replay alone
(no inbound frame) performs no broadcast and no pipeline invocation. -/
theorem C7_no_self_trigger (u now : String) (pre post : List Msg) (m : Msg)
    (hm : m.username = u) (cfg : ChatConfig) (llm : List Msg → String → String)
    (fails : Nat → Bool) (self : Nat) (s : HubState) (events : List ClientEvent)
    (hv : ∀ e ∈ events, isValidFrame e = true) :
    formatted_full_history u (pre ++ m :: post) = formatted_full_history u (pre ++ post) ∧
    countPipeline (runEndpoint cfg llm now fails self s events).trace =
      (events.filter (isAddressedFrame cfg)).length ∧
    (runEndpoint cfg llm now fails self s []).trace = [] := by
  refine ⟨?_, countPipeline_run cfg llm now fails self events s hv, rfl⟩
  unfold formatted_full_history
  have hbne : (m.username != u) = false := by simp [hm]
  simp [List.filter_append, List.filter_cons, hbne]

/-- Concrete configuration and inputs used by witnesses. -/
def cfgD : ChatConfig := ⟨"Akashvani", "@av", "llama3"⟩

def llmD : List Msg → String → String := fun _ _ => "Yes."

def mQuery : Msg := ⟨"Tester", "@av is it raining in London?", "t3"⟩

/-- A history message authored by the assistant whose text even looks
addressed; replaying it must trigger nothing. -/
def mAkEcho : Msg := ⟨"Akashvani", "@av echo", "t0"⟩

/-- Witness for C7: with a history already containing an assistant-authored
(and addressed-looking) message, one addressed inbound frame yields exactly
one pipeline invocation, and that history message is dropped from the
summarizer rendering. -/
theorem C7_witness :
    formatted_full_history "Akashvani" [mAkEcho] = formatted_full_history "Akashvani" [] ∧
    countPipeline (runEndpoint cfgD llmD "t4" (fun _ => false) 0
        ⟨[0], [mAkEcho], fun _ => []⟩ [ClientEvent.frame (Frame.valid mQuery)]).trace = 1 := by
  have h := C7_no_self_trigger "Akashvani" "t4" [] [] mAkEcho rfl cfgD llmD
    (fun _ => false) 0 ⟨[0], [mAkEcho], fun _ => []⟩
    [ClientEvent.frame (Frame.valid mQuery)]
    (by intro e he; simp at he; subst he; rfl)
  refine ⟨by simpa using h.1, ?_⟩
  rw [h.2.1]
  decide

/-- C8: an inbound frame that cannot be parsed as a Message-shaped payload is
fatal for exactly the receiving connection: after any number of well-formed
frames, the malformed frame terminates the endpoint loop with an unhandled
exception, the events after it are never processed, and the hub state (live
set, history, delivery logs) is exactly what it was after the well-formed
frames, so no other connection is terminated or otherwise affected. -/
theorem C8_malformed_frame_fatal (cfg : ChatConfig) (llm : List Msg → String → String)
    (now : String) (fails : Nat → Bool) (self : Nat) (s : HubState)
    (good rest : List ClientEvent) (hv : ∀ e ∈ good, isValidFrame e = true) :
    runEndpoint cfg llm now fails self s (good ++ ClientEvent.frame Frame.malformed :: rest) =
      ⟨(runEndpoint cfg llm now fails self s good).state, some ExitKind.unhandledException,
       (runEndpoint cfg llm now fails self s good).trace, rest⟩ ∧
    (runEndpoint cfg llm now fails self s good).exit = none :=
  ⟨(runEndpoint_good_then_malformed cfg llm now fails self good s rest hv).2.2,
   (runEndpoint_good_then_malformed cfg llm now fails self good s rest hv).1⟩

/-- Witness for C8: one good frame, then a malformed frame, then another
event: the loop stops at the malformed frame, leaves the later event
unprocessed, and the other connection (1) is still live. -/
theorem C8_witness :
    (runEndpoint cfgD llmD "t4" (fun _ => false) 0 ⟨[0, 1], [], fun _ => []⟩
        ([ClientEvent.frame (Frame.valid mAlice)] ++
          ClientEvent.frame Frame.malformed :: [ClientEvent.frame (Frame.valid mBob)])).exit =
      some ExitKind.unhandledException ∧
    (runEndpoint cfgD llmD "t4" (fun _ => false) 0 ⟨[0, 1], [], fun _ => []⟩
        ([ClientEvent.frame (Frame.valid mAlice)] ++
          ClientEvent.frame Frame.malformed :: [ClientEvent.frame (Frame.valid mBob)])).unprocessed =
      [ClientEvent.frame (Frame.valid mBob)] ∧
    (1 : Nat) ∈ (runEndpoint cfgD llmD "t4" (fun _ => false) 0 ⟨[0, 1], [], fun _ => []⟩
        ([ClientEvent.frame (Frame.valid mAlice)] ++
          ClientEvent.frame Frame.malformed :: [ClientEvent.frame (Frame.valid mBob)])).state.active_connections := by
  have h := C8_malformed_frame_fatal cfgD llmD "t4" (fun _ => false) 0
    ⟨[0, 1], [], fun _ => []⟩ [ClientEvent.frame (Frame.valid mAlice)]
    [ClientEvent.frame (Frame.valid mBob)]
    (by intro e he; simp at he; subst he; rfl)
  rw [h.1]
  refine ⟨rfl, rfl, ?_⟩
  decide

/-- C9: for an addressed frame, the endpoint first broadcasts the raw user
message, then invokes the assistant pipeline (on a history that already
contains the question), and broadcasts the assistant reply strictly
afterwards: the action trace is exactly [broadcast question, pipeline call,
broadcast reply], and the final history is the old history, the question,
then the reply, in that order. -/
theorem C9_question_before_reply (cfg : ChatConfig) (llm : List Msg → String → String)
    (now : String) (fails : Nat → Bool) (m : Msg) (s : HubState)
    (h : isAddressed cfg.username cfg.shorthand (pyStrip m.text) = true) :
    (handleFrame cfg llm now fails m s).2 =
      [Action.broadcastAct m,
       Action.pipelineAct (s.messages ++ [m])
         (user_question cfg.username cfg.shorthand (pyStrip m.text)),
       Action.broadcastAct
         ⟨cfg.username,
          llm (s.messages ++ [m]) (user_question cfg.username cfg.shorthand (pyStrip m.text)),
          now⟩] ∧
    (handleFrame cfg llm now fails m s).1.messages =
      s.messages ++ [m] ++
        [⟨cfg.username,
          llm (s.messages ++ [m]) (user_question cfg.username cfg.shorthand (pyStrip m.text)),
          now⟩] := by
  constructor
  · exact handleFrame_trace_addressed cfg llm now fails m s h
  · simp [handleFrame, h, hubBroadcast_messages]

/-- Witness for C9 at the default configuration. -/
theorem C9_witness :
    (handleFrame cfgD llmD "t4" (fun _ => false) mQuery ⟨[0], [], fun _ => []⟩).2 =
      [Action.broadcastAct mQuery,
       Action.pipelineAct [mQuery] "is it raining in London?",
       Action.broadcastAct ⟨"Akashvani", "Yes.", "t4"⟩] := by
  have h := (C9_question_before_reply cfgD llmD "t4" (fun _ => false) mQuery
    ⟨[0], [], fun _ => []⟩ (by decide)).1
  rw [h]
  decide

/-- C10: when the endpoint loop dies on an exception that is neither a
WebSocketDisconnect nor a RuntimeError (e.g. a frame that is not valid
JSON), Hub.disconnect is never called (no disconnect action in the trace),
so the connection is still in the live set after the loop has terminated; it
is removed only by a later broadcast whose send to it fails.  By contrast,
the two handled exits do call disconnect. -/
theorem C10_zombie_connection (cfg : ChatConfig) (llm : List Msg → String → String)
    (now : String) (fails : Nat → Bool) (self : Nat) (s : HubState)
    (fails2 : Nat → Bool) (m2 : Msg)
    (hself : self ∈ s.active_connections) (h2 : fails2 self = true) :
    (runEndpoint cfg llm now fails self s [ClientEvent.frame Frame.malformed]).exit =
      some ExitKind.unhandledException ∧
    (∀ c, Action.disconnectAct c ∉
      (runEndpoint cfg llm now fails self s [ClientEvent.frame Frame.malformed]).trace) ∧
    self ∈ (runEndpoint cfg llm now fails self s
      [ClientEvent.frame Frame.malformed]).state.active_connections ∧
    self ∉ (hubBroadcast fails2 m2
      (runEndpoint cfg llm now fails self s [ClientEvent.frame Frame.malformed]).state).active_connections ∧
    (runEndpoint cfg llm now fails self s [ClientEvent.wsDisconnect]).trace =
      [Action.disconnectAct self] ∧
    (runEndpoint cfg llm now fails self s [ClientEvent.runtimeError]).trace =
      [Action.disconnectAct self] := by
  refine ⟨rfl, by simp [runEndpoint], hself, ?_, rfl, rfl⟩
  show self ∉ (hubBroadcast fails2 m2 s).active_connections
  rw [hubBroadcast_active]
  simp [List.mem_filter, h2]

/-- Witness for C10: connection 5 survives its own death on a malformed frame
and is only removed by a later failing broadcast. -/
theorem C10_witness :
    (runEndpoint cfgD llmD "t4" (fun _ => false) 5 ⟨[5], [], fun _ => []⟩
        [ClientEvent.frame Frame.malformed]).exit = some ExitKind.unhandledException ∧
    (5 : Nat) ∈ (runEndpoint cfgD llmD "t4" (fun _ => false) 5 ⟨[5], [], fun _ => []⟩
        [ClientEvent.frame Frame.malformed]).state.active_connections ∧
    (5 : Nat) ∉ (hubBroadcast (fun _ => true) mBob
        (runEndpoint cfgD llmD "t4" (fun _ => false) 5 ⟨[5], [], fun _ => []⟩
          [ClientEvent.frame Frame.malformed]).state).active_connections := by
  have h := C10_zombie_connection cfgD llmD "t4" (fun _ => false) 5
    ⟨[5], [], fun _ => []⟩ (fun _ => true) mBob (by simp) rfl
  exact ⟨h.1, h.2.2.1, h.2.2.2.1⟩

/-! ### String-level helper lemmas -/

lemma str_eq_of_data {a b : String} (h : a.data = b.data) : a = b := by
  calc a = ⟨a.data⟩ := rfl
    _ = ⟨b.data⟩ := by rw [h]
    _ = b := rfl

lemma pyStartsWith_iff (s p : String) :
    pyStartsWith s p = true ↔ ∃ r : String, s = p ++ r := by
  constructor
  · intro h
    have htake : s.data.take p.data.length = p.data := by
      simpa [pyStartsWith] using h
    refine ⟨⟨s.data.drop p.data.length⟩, str_eq_of_data ?_⟩
    rw [String.data_append]
    show s.data = p.data ++ s.data.drop p.data.length
    calc s.data
        = s.data.take p.data.length ++ s.data.drop p.data.length :=
          (List.take_append_drop p.data.length s.data).symm
      _ = p.data ++ s.data.drop p.data.length := by rw [htake]
  · rintro ⟨r, rfl⟩
    simp [pyStartsWith, String.data_append, List.take_left]

lemma pyLen_append (a b : String) : pyLen (a ++ b) = pyLen a + pyLen b := by
  simp [pyLen, String.data_append]

lemma pyLen_pyLower (s : String) : pyLen (pyLower s) = pyLen s := by
  simp [pyLen, pyLower]

lemma str_ne_empty_of_data_ne (s : String) (h : s.data ≠ []) : s ≠ "" := by
  intro he
  exact h (by rw [he])

lemma strContains_of_decomp (s pre sub post : String) (h : s = pre ++ sub ++ post) :
    strContains s sub := by
  subst h
  exact ⟨pre.data, post.data, by simp [String.data_append, List.append_assoc]⟩

lemma append_left_ne_empty (a b : String) (h : a ≠ "") : a ++ b ≠ "" := by
  apply str_ne_empty_of_data_ne
  rw [String.data_append]
  intro hab
  exact h (str_eq_of_data (by rw [(List.append_eq_nil.1 hab).1]))

/-- C3 (amended): the inbound text is first stripped of surrounding
whitespace; the stripped text is addressed iff its lower-cased form starts
with "@" plus the lower-cased username or with the "@"-normalized lower-cased
shorthand; on a full-name match (which takes precedence) the question is the
stripped text with exactly the matched prefix removed (len(username)+1
characters) and trimmed; on a shorthand-only match the question is the
stripped text with the first len(configured shorthand) characters removed and
trimmed, which coincides with removing the matched prefix exactly when the
configured shorthand already starts with "@"; under the default configuration
"@AV what is 2+2?" is addressed with question "what is 2+2?". -/
theorem C3_detection (username shorthand t : String) :
    (isAddressed username shorthand (pyStrip t) = true ↔
      (∃ r, pyLower (pyStrip t) = ("@" ++ pyLower username) ++ r) ∨
      (∃ r, pyLower (pyStrip t) = normalized_shorthand_check shorthand ++ r)) ∧
    (pyStartsWith (pyLower (pyStrip t)) ("@" ++ pyLower username) = true →
      user_question username shorthand (pyStrip t) =
        pyStrip (pyDrop (pyStrip t) (pyLen ("@" ++ pyLower username)))) ∧
    (pyStartsWith (pyLower (pyStrip t)) ("@" ++ pyLower username) = false →
      pyStartsWith (pyLower (pyStrip t)) (normalized_shorthand_check shorthand) = true →
      user_question username shorthand (pyStrip t) =
        pyStrip (pyDrop (pyStrip t) (pyLen shorthand))) ∧
    (pyStartsWith (pyLower shorthand) "@" = true →
      pyLen (normalized_shorthand_check shorthand) = pyLen shorthand) ∧
    (isAddressed "Akashvani" "@av" (pyStrip "@AV what is 2+2?") = true ∧
     user_question "Akashvani" "@av" (pyStrip "@AV what is 2+2?") = "what is 2+2?") := by
  refine ⟨?_, ?_, ?_, ?_, by decide, by decide⟩
  · rw [isAddressed, Bool.or_eq_true, pyStartsWith_iff, pyStartsWith_iff]
  · intro h
    have hlen : pyLen ("@" ++ pyLower username) = pyLen username + 1 := by
      rw [pyLen_append, pyLen_pyLower]
      simp [pyLen]
      try omega
    rw [hlen]
    simp [user_question, h]
  · intro h1 h2
    simp [user_question, h1, h2]
  · intro h
    rw [normalized_shorthand_check]
    simp only [h, if_true]
    exact pyLen_pyLower shorthand

/-- Counterexample to C3 as stated: (1) classification is applied to the
stripped text, so " @av hi" is classified as addressed even though its
lower-cased form starts with neither prefix; (2) with a configured shorthand
"av" that does not start with "@", the matched prefix is the normalized "@av"
but the code removes only len("av") = 2 characters, so the question payload
"v hi" differs from the matched-prefix removal "hi". -/
theorem C3_counterexample :
    (isAddressed "Akashvani" "@av" (pyStrip " @av hi") = true ∧
     pyStartsWith (pyLower " @av hi") ("@" ++ pyLower "Akashvani") = false ∧
     pyStartsWith (pyLower " @av hi") (normalized_shorthand_check "@av") = false) ∧
    (isAddressed "Akashvani" "av" "@av hi" = true ∧
     user_question "Akashvani" "av" "@av hi" = "v hi" ∧
     pyStrip (pyDrop "@av hi" (pyLen (normalized_shorthand_check "av"))) = "hi" ∧
     ("v hi" : String) ≠ "hi") := by
  decide

/-- Witness for C3 (amended), shorthand branch at the default configuration. -/
theorem C3_witness :
    user_question "Akashvani" "@av" (pyStrip "@AV what is 2+2?") =
      pyStrip (pyDrop (pyStrip "@AV what is 2+2?") (pyLen "@av")) := by
  have h := C3_detection "Akashvani" "@av" "@AV what is 2+2?"
  exact h.2.2.1 (by decide) (by decide)

/-- C4 (amended): when the Stage-2 answer call fails, the pipeline returns
(never raises) a fixed, non-empty, user-legible string: on a network/backend
error (RequestException, including non-2xx statuses) the apology names the
configured model; on a 2xx response missing the expected text field the
fixed notice does not mention the model; on any other exception the apology
embeds the exception text. -/
theorem C4_answer_failure (model username : String) (history : List Msg) (uq : String)
    (rSum : BackendResult) (e : String) :
    (call_llm_for_akashvani model username history uq rSum (BackendResult.requestError e) =
      "Akashvani: I apologize, but I\x27m having trouble connecting to my knowledge base (Ollama). Please ensure Ollama is running and the model \x27" ++
        model ++ "\x27 is pulled. Error: " ++ e ∧
     strContains
       (call_llm_for_akashvani model username history uq rSum (BackendResult.requestError e))
       model ∧
     call_llm_for_akashvani model username history uq rSum (BackendResult.requestError e) ≠ "") ∧
    (call_llm_for_akashvani model username history uq rSum (BackendResult.success none) =
      "Akashvani: I received an unexpected response from the LLM." ∧
     call_llm_for_akashvani model username history uq rSum (BackendResult.success none) ≠ "") ∧
    (call_llm_for_akashvani model username history uq rSum (BackendResult.otherError e) =
      "Akashvani: An internal error occurred while processing your request: " ++ e ∧
     call_llm_for_akashvani model username history uq rSum (BackendResult.otherError e) ≠ "") := by
  refine ⟨⟨rfl, ?_, ?_⟩, ⟨rfl, ?_⟩, ⟨rfl, ?_⟩⟩
  · exact strContains_of_decomp _
      "Akashvani: I apologize, but I\x27m having trouble connecting to my knowledge base (Ollama). Please ensure Ollama is running and the model \x27"
      model ("\x27 is pulled. Error: " ++ e)
      (by apply str_eq_of_data
          simp only [call_llm_for_akashvani, String.data_append, List.append_assoc])
  · exact append_left_ne_empty _ e
      (append_left_ne_empty _ _ (append_left_ne_empty _ _ (by decide)))
  · show "Akashvani: I received an unexpected response from the LLM." ≠ ""
    decide
  · exact append_left_ne_empty _ e (by decide)

/-- Counterexample to C4 as stated: a 2xx Stage-2 response missing the
expected text field produces the fixed notice, which does not contain the
configured model name (default "llama3"). -/
theorem C4_counterexample :
    call_llm_for_akashvani "llama3" "Akashvani" [] "q" (BackendResult.success (some "ctx"))
        (BackendResult.success none) =
      "Akashvani: I received an unexpected response from the LLM." ∧
    ¬ strContains "Akashvani: I received an unexpected response from the LLM." "llama3" := by
  refine ⟨rfl, ?_⟩
  show ¬ ("llama3".data <:+: "Akashvani: I received an unexpected response from the LLM.".data)
  decide

set_option maxRecDepth 4000 in
/-- C5 (amended): when Stage-1 summarization fails with a network/backend
error the stage yields a literal error-marker string (a second marker for any
other exception), while a 2xx response missing the expected text field
yields the empty string; in every case the pipeline does not abort: the
Stage-2 prompt is built with the stage output (in the backend-error case,
the marker) as its context, and Stage-2 still produces an answer. -/
theorem C5_summarize_failure_degrades (model username : String) (history : List Msg)
    (uq e txt : String) :
    summarize_chat_history username history uq (BackendResult.requestError e) =
      "[Error: Could not generate summary. Check Ollama connection.]" ∧
    summarize_chat_history username history uq (BackendResult.otherError e) =
      "[Error: Unexpected summarization issue.]" ∧
    summarize_chat_history username history uq (BackendResult.success none) = "" ∧
    akashvani_prompt username history uq (BackendResult.requestError e) =
      AKASHVANI_PROMPT_fmt "[Error: Could not generate summary. Check Ollama connection.]" uq ∧
    strContains (akashvani_prompt username history uq (BackendResult.requestError e))
      "[Error: Could not generate summary. Check Ollama connection.]" ∧
    call_llm_for_akashvani model username history uq (BackendResult.requestError e)
        (BackendResult.success (some txt)) = sanitize_response username txt ∧
    call_llm_for_akashvani model username history uq (BackendResult.requestError e)
        (BackendResult.requestError e) ≠ "" := by
  refine ⟨rfl, rfl, rfl, rfl, ?_, rfl, ?_⟩
  · exact strContains_of_decomp _
      "You are Akashvani, a helpful, concise, and factual AI assistant in a chat.\nYour primary goal is to provide direct and accurate factual answers to the user\x27s *current, explicit question*.\n\n**Important Instructions for Akashvani:**\n- Always respond from the perspective of \x27Akashvani\x27.\n- Your answer should be concise and to the point. Aim for 1-3 sentences for factual answers, or a brief summary if explicitly requested.\n- If the user\x27s question is a factual query (e.g., \"What is X?\", \"Is Y true?\", \"What\x27s the capital of Z?\"), provide a direct and accurate factual answer from your knowledge base.\n- The \x27Recent Chat History\x27 provided below has already been summarized to be highly relevant to the \x27User\x27s explicit question\x27. Use this summarized context judiciously to answer or clarify.\n- Do NOT simply restate what a previous participant said if a factual answer is implicitly or explicitly requested.\n- Do NOT introduce yourself, ask for clarification unless absolutely necessary, or refer to past interactions unless directly relevant to the *current* question\x27s intent.\n- Your response should come directly from Akashvani, without any introductory phrases like \"Akashvani says:\" or repeating the user\x27s question.\n\nRecent Chat History (already summarized for relevance to the question):\n"
      "[Error: Could not generate summary. Check Ollama connection.]"
      ("\n\nUser\x27s explicit question to Akashvani: \"" ++ uq ++
        "\"\n\nYour concise answer:\n")
      (by apply str_eq_of_data
          simp only [akashvani_prompt, AKASHVANI_PROMPT_fmt, summarize_chat_history,
            String.data_append, List.append_assoc])
  · exact append_left_ne_empty _ e
      (append_left_ne_empty _ _ (append_left_ne_empty _ _ (by decide)))

/-- Counterexample to C5 as stated: a MalformedBackendResponse during
summarization (2xx with the "response" field absent) yields the empty string
as the stage output, not a literal error-marker string. -/
theorem C5_counterexample :
    summarize_chat_history "Akashvani" [] "q" (BackendResult.success none) = "" ∧
    ("" : String) ≠ "[Error: Could not generate summary. Check Ollama connection.]" ∧
    ("" : String) ≠ "[Error: Unexpected summarization issue.]" := by
  exact ⟨rfl, by decide, by decide⟩

/-- C6 (amended): evaluate parses the first line of the stripped raw backend
output as the verdict: when the trimmed, upper-cased first line equals "PASS"
(a case-insensitive match) the result is PASS with empty reason; any other
first line gives FAIL with the trimmed remainder as reason, with a synthetic
placeholder substituted when there is no remainder or it trims to empty; a
transport/backend failure (RequestException) or any other exception gives
ERROR whose reason contains the failure detail, never PASS or FAIL; a 2xx
response missing the expected text field is treated as raw output "" and so
gives FAIL with the placeholder, not ERROR.  The spec examples hold. -/
theorem C6_judge_verdict (raw e : String) :
    (pyUpper (pyStrip (pySplitOnce (pyStrip raw)).1) = "PASS" →
      evaluate_akashvani_response (BackendResult.success (some raw)) = ⟨"PASS", ""⟩) ∧
    (pyUpper (pyStrip (pySplitOnce (pyStrip raw)).1) ≠ "PASS" →
      ∀ rest, (pySplitOnce (pyStrip raw)).2 = some rest → pyStrip rest ≠ "" →
      evaluate_akashvani_response (BackendResult.success (some raw)) = ⟨"FAIL", pyStrip rest⟩) ∧
    (pyUpper (pyStrip (pySplitOnce (pyStrip raw)).1) ≠ "PASS" →
      ((pySplitOnce (pyStrip raw)).2 = none ∨
        ∃ rest, (pySplitOnce (pyStrip raw)).2 = some rest ∧ pyStrip rest = "") →
      evaluate_akashvani_response (BackendResult.success (some raw)) =
        ⟨"FAIL", "No specific reason provided by judge, but status was FAIL."⟩) ∧
    (evaluate_akashvani_response (BackendResult.requestError e) =
        ⟨"ERROR", "Judge connection error: " ++ e⟩ ∧
     strContains ("Judge connection error: " ++ e) e) ∧
    (evaluate_akashvani_response (BackendResult.otherError e) =
        ⟨"ERROR", "Judge internal error: " ++ e⟩ ∧
     strContains ("Judge internal error: " ++ e) e) ∧
    (evaluate_akashvani_response (BackendResult.success (some "PASS")) = ⟨"PASS", ""⟩ ∧
     evaluate_akashvani_response (BackendResult.success (some "FAIL\nresponse too vague")) =
       ⟨"FAIL", "response too vague"⟩) := by
  refine ⟨?_, ?_, ?_, ⟨rfl, ?_⟩, ⟨rfl, ?_⟩, by decide, by decide⟩
  · intro h
    simp [evaluate_akashvani_response, h]
  · intro h rest hrest hne
    simp [evaluate_akashvani_response, h, hrest, hne]
  · intro h hr
    rcases hr with hnone | ⟨rest, hrest, hempty⟩
    · simp [evaluate_akashvani_response, h, hnone]
    · simp [evaluate_akashvani_response, h, hrest, hempty]
  · exact strContains_of_decomp _ "Judge connection error: " e "" (by
      apply str_eq_of_data
      simp [String.data_append, List.append_assoc])
  · exact strContains_of_decomp _ "Judge internal error: " e "" (by
      apply str_eq_of_data
      simp [String.data_append, List.append_assoc])

/-- Counterexample to C6 as stated: a 2xx judge response missing the expected
text field (the MalformedBackendResponse condition) yields a FAIL verdict
with the placeholder reason, not an ERROR verdict. -/
theorem C6_counterexample :
    evaluate_akashvani_response (BackendResult.success none) =
      ⟨"FAIL", "No specific reason provided by judge, but status was FAIL."⟩ ∧
    (evaluate_akashvani_response (BackendResult.success none)).status ≠ "ERROR" := by
  exact ⟨rfl, by decide⟩

/-- Witness for C6 (amended): a lower-case fail verdict with a reason line. -/
theorem C6_witness :
    evaluate_akashvani_response (BackendResult.success (some "fail\nresponse too vague")) =
      ⟨"FAIL", "response too vague"⟩ := by
  have h := (C6_judge_verdict "fail\nresponse too vague" "x").2.1
  exact h (by decide) "response too vague" (by decide) (by decide)

end SmartChat
